import Mathlib

/-!
Shallow embedding of the `land_pipeline` repository's HTTP client utilities
(`src/airtable_utils.py`, `src/flows/pandadoc_triggers.py`), together with
theorems about their pagination, retry, payload-construction and
error-propagation behaviour.

Modelling conventions:
* JSON values are the inductive `Json` below (numbers restricted to `Int`:
  every number occurring in the claims is integral).
* An `httpx` response is a `Response`: status code, raw body text, and the
  result of `response.json()` (parsing the body is a property of the body
  itself, so it is carried on the response as `jsonBody`).
* Python exceptions become `Except PyError`.  `PyError` has one constructor
  per exception kind the code can actually raise.
* Python truthiness of optional arguments and of JSON values is modelled
  explicitly (`pyTruthyStr`, `pyTruthyInt`, `pyTruthyJson`).
* The HTTP transport is a parameter: for single-request operations it is the
  `Except PyError Response` the one call produces; for the paginated fetch it
  is a function from the initial query parameters to the list of per-page
  results the server would hand back in sequence (the cursor exchange is
  deterministic, so the page sequence is a function of the initial params).
* Prefect's `@task(retries=..., retry_delay_seconds=...)` decorator is the
  combinator `prefectRun` below, applied with the constants taken from the
  decorators in the source.
-/

/-- JSON values (numbers restricted to integers). -/
inductive Json where
  | null : Json
  | bool : Bool → Json
  | num : Int → Json
  | str : String → Json
  | arr : List Json → Json
  | obj : List (String × Json) → Json
deriving Repr

/-- `d.get(k)` on a Python dict represented as an association list. -/
def jsonGet (kvs : List (String × Json)) (k : String) : Option Json :=
  (kvs.find? (fun kv => kv.1 == k)).map (fun kv => kv.2)

/-- Python truthiness of a JSON value (`None`, `False`, `0`, `""`, `[]`, `{}`
are falsy). -/
def pyTruthyJson : Json → Bool
  | .null => false
  | .bool b => b
  | .num n => n != 0
  | .str s => s != ""
  | .arr xs => !xs.isEmpty
  | .obj kvs => !kvs.isEmpty

/-- Python truthiness of a value that may be `None` (`Option`). -/
def pyTruthyOpt : Option Json → Bool
  | none => false
  | some j => pyTruthyJson j

/-- Python truthiness of an `Optional[str]` argument. -/
def pyTruthyStr : Option String → Bool
  | none => false
  | some s => s != ""

/-- Python truthiness of an `Optional[int]` argument. -/
def pyTruthyInt : Option Int → Bool
  | none => false
  | some n => n != 0

/-- The exception kinds the embedded code can raise. -/
inductive PyError where
  | httpStatusError : Nat → String → PyError   -- httpx.HTTPStatusError: status, response body
  | transportError : String → PyError          -- httpx connect/timeout errors
  | jsonDecodeError : String → PyError         -- json.JSONDecodeError from response.json()
  | typeError : String → PyError               -- TypeError (e.g. extending from a non-iterable)
deriving Repr, DecidableEq

/-- The Python class name of the exception, for "same kind of error" claims. -/
def PyError.kindName : PyError → String
  | .httpStatusError _ _ => "HTTPStatusError"
  | .transportError _ => "TransportError"
  | .jsonDecodeError _ => "JSONDecodeError"
  | .typeError _ => "TypeError"

/-- An `httpx` response: status code, body text, and what `response.json()`
would yield on that body. -/
structure Response where
  status : Nat
  text : String
  jsonBody : Except String Json

/-- `response.raise_for_status()`: raises `httpx.HTTPStatusError` unless the
status is 2xx. -/
def raise_for_status (r : Response) : Except PyError Response :=
  if 200 ≤ r.status ∧ r.status < 300 then .ok r
  else .error (.httpStatusError r.status r.text)

/-- `response.json()`: the parsed body, or `json.JSONDecodeError`. -/
def respJson (r : Response) : Except PyError Json :=
  match r.jsonBody with
  | .ok j => .ok j
  | .error m => .error (.jsonDecodeError m)

/-- Query parameters built by `get_airtable_records` (absent key = absent
from the Python `params` dict). -/
structure AirtableParams where
  view : Option String
  filterByFormula : Option String
  maxRecords : Option Int
deriving Repr, DecidableEq

/-- The `params` dict built at `src/airtable_utils.py:41-47`: each option is
added only when Python-truthy. -/
def buildParams (view filter_formula : Option String) (max_records : Option Int) :
    AirtableParams :=
  { view := if pyTruthyStr view then view else none
    filterByFormula := if pyTruthyStr filter_formula then filter_formula else none
    maxRecords := if pyTruthyInt max_records then max_records else none }

example : buildParams (some "New Today") none (some 5) =
    ⟨some "New Today", none, some 5⟩ := by decide
example : buildParams (some "") (some "") (some 0) = ⟨none, none, none⟩ := by decide

/-- Whether a JSON value is an object (a Python `dict`). -/
def Json.isObj : Json → Bool
  | .obj _ => true
  | _ => false

/-- Python `list.extend(x)`: iterating `x`.  A JSON array iterates its
elements, a string its one-character substrings, a dict its keys; every
other JSON value is not iterable and raises `TypeError`. -/
def pyExtend : Json → Except PyError (List Json)
  | .arr xs => .ok xs
  | .str s => .ok (s.toList.map (fun c => Json.str (String.mk [c])))
  | .obj kvs => .ok (kvs.map (fun kv => Json.str kv.1))
  | _ => .error (.typeError "argument to extend is not iterable")

/-- One iteration of the pagination loop body at `src/airtable_utils.py:62-68`
up to the cursor test: raise on transport failure, `raise_for_status`, parse
the body, `data.get("records", [])` extended into the accumulator,
`data.get("offset")` read out. -/
def readPage (r : Except PyError Response) :
    Except PyError (List Json × Option Json) :=
  match r with
  | .error e => .error e
  | .ok resp =>
    match raise_for_status resp with
    | .error e => .error e
    | .ok resp' =>
      match respJson resp' with
      | .error e => .error e
      | .ok data =>
        match data with
        | .obj kvs =>
          match pyExtend ((jsonGet kvs "records").getD (.arr [])) with
          | .error e => .error e
          | .ok recs => .ok (recs, jsonGet kvs "offset")
        | _ => .error (.typeError "response JSON is not a dict")

/-- The `while True` pagination loop at `src/airtable_utils.py:58-72` run
against the sequence of per-page results a mock server would emit.  The
cursor exchange is deterministic, so the server is modelled as the list of
responses it hands back in order; exhausting the list while the loop still
wants a page is a model artifact reported as a transport error (the mock
servers of the claims always terminate the loop first).  The loop breaks
exactly when `data.get("offset")` is Python-falsy (`if not offset: break`). -/
def fetchPages : List (Except PyError Response) → Except PyError (List Json)
  | [] => .error (.transportError "mock server emitted no response")
  | r :: rs =>
    match readPage r with
    | .error e => .error e
    | .ok (recs, off) =>
      if pyTruthyOpt off then
        match fetchPages rs with
        | .error e => .error e
        | .ok rest => .ok (recs ++ rest)
      else .ok recs

/-- Number of GET requests the pagination loop issues against the given
server before returning or raising. -/
def requestsMade : List (Except PyError Response) → Nat
  | [] => 0
  | r :: rs =>
    match readPage r with
    | .error _ => 1
    | .ok (_, off) => if pyTruthyOpt off then 1 + requestsMade rs else 1

/-- `get_airtable_records` (`src/airtable_utils.py:11-72`): builds the query
params from the Python-truthy options and runs the pagination loop against
the page sequence the server emits for those params. -/
def get_airtable_records (view filter_formula : Option String)
    (max_records : Option Int)
    (server : AirtableParams → List (Except PyError Response)) :
    Except PyError (List Json) :=
  fetchPages (server (buildParams view filter_formula max_records))

/-- The URL built by the Airtable operations
(`f"https://api.airtable.com/v0/{base_id}/{table_name}"`). -/
def airtableUrl (base_id table_name : String) : String :=
  "https://api.airtable.com/v0/" ++ base_id ++ "/" ++ table_name

/-- An outbound HTTP request with a JSON body. -/
structure HttpRequest where
  url : String
  body : Json
deriving Repr

/-- `create_airtable_record` (`src/airtable_utils.py:75-111`): one POST with
payload `{"fields": fields}`; `raise_for_status`, then `response.json()`
returned unmodified.  The first component is the list of requests issued. -/
def create_airtable_record (base_id table_name : String)
    (fields : List (String × Json)) (transport : Except PyError Response) :
    List HttpRequest × Except PyError Json :=
  let payload : Json := .obj [("fields", .obj fields)]
  ( [⟨airtableUrl base_id table_name, payload⟩],
    match transport with
    | .error e => .error e
    | .ok resp =>
      match raise_for_status resp with
      | .error e => .error e
      | .ok resp' => respJson resp' )

/-- `update_airtable_record` (`src/airtable_utils.py:114-152`): one PATCH to
`{url}/{record_id}` with payload `{"fields": fields}`; `raise_for_status`,
then `response.json()` returned unmodified. -/
def update_airtable_record (base_id table_name record_id : String)
    (fields : List (String × Json)) (transport : Except PyError Response) :
    List HttpRequest × Except PyError Json :=
  let payload : Json := .obj [("fields", .obj fields)]
  ( [⟨airtableUrl base_id table_name ++ "/" ++ record_id, payload⟩],
    match transport with
    | .error e => .error e
    | .ok resp =>
      match raise_for_status resp with
      | .error e => .error e
      | .ok resp' => respJson resp' )

/-- An optional field of the log record: added only when Python-truthy
(`if record_url: fields["Record URL"] = record_url`, etc.). -/
def optField (name : String) : Option String → List (String × Json)
  | some s => if s != "" then [(name, Json.str s)] else []
  | none => []

/-- `log_automation` (`src/airtable_utils.py:155-188`): builds the field map
from the arguments and calls `create_airtable_record` on the
`"Automations Log"` table.  There is no validation of `status`. -/
def log_automation (base_id action status : String)
    (record_url log_payload error_message : Option String)
    (transport : Except PyError Response) :
    List HttpRequest × Except PyError Json :=
  let fields := [("Action", Json.str action), ("Status", Json.str status)]
    ++ optField "Record URL" record_url
    ++ optField "Payload" log_payload
    ++ optField "Error Message" error_message
  create_airtable_record base_id "Automations Log" fields transport

/-- Python `str.strip()` with no argument: leading and trailing whitespace
removed (structural, so it evaluates definitionally). -/
def pyStrip (s : String) : String :=
  String.mk
    (((s.toList.dropWhile Char.isWhitespace).reverse.dropWhile
        Char.isWhitespace).reverse)

example : pyStrip "  ab c  " = "ab c" := by decide
example : pyStrip "   " = "" := by decide

/-- `call_pandadoc_webhook` (`src/flows/pandadoc_triggers.py:13-40`): one
POST of the payload; `raise_for_status`; then `response.json()` if the body
is non-empty and non-blank and parses, else the
`{"status": "accepted", "status_code": ...}` fallback dict. -/
def call_pandadoc_webhook (webhook_url : String) (payload : Json)
    (transport : Except PyError Response) :
    List HttpRequest × Except PyError Json :=
  ( [⟨webhook_url, payload⟩],
    match transport with
    | .error e => .error e
    | .ok resp =>
      match raise_for_status resp with
      | .error e => .error e
      | .ok resp' =>
        if resp'.text ≠ "" ∧ pyStrip resp'.text ≠ "" then
          match resp'.jsonBody with
          | .ok j => .ok j
          | .error _ =>
            .ok (.obj [("status", .str "accepted"),
                       ("status_code", .num (resp'.status : Int))])
        else
          .ok (.obj [("status", .str "accepted"),
                     ("status_code", .num (resp'.status : Int))]) )

/-- The retry bound of `@task(retries=2, retry_delay_seconds=5)` on every
Airtable and PandaDoc task (`src/airtable_utils.py:11,75,114,155`,
`src/flows/pandadoc_triggers.py:13`). -/
def task_retries : Nat := 2

/-- The retry delay (seconds) of those tasks. -/
def task_retry_delay_seconds : Nat := 5

/-- The retry delay (seconds) of the backup task
(`src/nightly_backup.py:11`, `@task(retries=2, retry_delay_seconds=10)`). -/
def backup_task_retry_delay_seconds : Nat := 10

/-- Run attempt `i`, then up to `fuel` further attempts on failure. -/
def runAttempts {A : Type} (f : Nat → Except PyError A) :
    Nat → Nat → Except PyError A
  | i, 0 => f i
  | i, fuel + 1 =>
    match f i with
    | .ok a => .ok a
    | .error _ => runAttempts f (i + 1) fuel

/-- Prefect's `@task(retries=r)` semantics: the task body is attempted up to
`r + 1` times, stopping at the first success. -/
def prefectRun {A : Type} (retries : Nat) (f : Nat → Except PyError A) :
    Except PyError A :=
  runAttempts f 0 retries

/-- Number of attempts `runAttempts` actually makes. -/
def attemptsMade {A : Type} (f : Nat → Except PyError A) :
    Nat → Nat → Nat
  | _, 0 => 1
  | i, fuel + 1 =>
    match f i with
    | .ok _ => 1
    | .error _ => 1 + attemptsMade f (i + 1) fuel

/-- A 200 mock page response whose body is
`{"records": [...], "offset": ...?}` (the `offset` key present only when
given). -/
def pageJson (recs : List Json) (off : Option Json) : Json :=
  .obj ([("records", .arr recs)] ++
    (match off with | some j => [("offset", j)] | none => []))

/-- A 200 mock response carrying `pageJson recs off`. -/
def mkPage (recs : List Json) (off : Option Json) : Response :=
  { status := 200, text := "mock", jsonBody := .ok (pageJson recs off) }

example :
    fetchPages [.ok (mkPage [.str "r1"] (some (.str "cur"))),
                .ok (mkPage [.str "r2"] none)] = .ok [.str "r1", .str "r2"] := rfl
example :
    requestsMade [.ok (mkPage [.str "r1"] (some (.str "cur"))),
                  .ok (mkPage [.str "r2"] none)] = 2 := rfl
example :
    fetchPages [.ok (mkPage [.str "r1"] (some (.str "")))] = .ok [.str "r1"] := rfl

/-! ## Helper lemmas -/

theorem readPage_mkPage (recs : List Json) (off : Option Json) :
    readPage (.ok (mkPage recs off)) = .ok (recs, off) := by
  cases off <;> rfl

/-- Pagination over a good server: every page before the last carries a
truthy cursor, the last a falsy one; the loop visits each page once and
concatenates the records. -/
theorem fetchPages_front_last (front : List (List Json × Option Json))
    (lastRecs : List Json) (lastOff : Option Json)
    (hfront : ∀ p ∈ front, pyTruthyOpt p.2 = true)
    (hlast : pyTruthyOpt lastOff = false) :
    fetchPages ((front.map fun p => .ok (mkPage p.1 p.2)) ++
        [.ok (mkPage lastRecs lastOff)]) =
      .ok ((front.map Prod.fst).flatten ++ lastRecs)
    ∧ requestsMade ((front.map fun p => .ok (mkPage p.1 p.2)) ++
        [.ok (mkPage lastRecs lastOff)]) = front.length + 1 := by
  induction front with
  | nil =>
    simp [fetchPages, requestsMade, readPage_mkPage, hlast]
  | cons p front ih =>
    have hp : pyTruthyOpt p.2 = true := hfront p (by simp)
    have ih' := ih (fun q hq => hfront q (by simp [hq]))
    constructor
    · simp only [List.map_cons, List.cons_append, fetchPages, readPage_mkPage,
        hp, if_true, List.append_eq, ih'.1, List.flatten_cons, List.append_assoc]
    · simp only [List.map_cons, List.cons_append, requestsMade, readPage_mkPage,
        hp, if_true, List.append_eq, ih'.2, List.length_cons]
      omega

/-- Pagination over a server that fails at the page after `front`: the whole
fetch fails with that error, after exactly `front.length + 1` requests. -/
theorem fetchPages_error_after (front : List (List Json × Option Json))
    (e : PyError) (rest : List (Except PyError Response))
    (hfront : ∀ p ∈ front, pyTruthyOpt p.2 = true) :
    fetchPages ((front.map fun p => .ok (mkPage p.1 p.2)) ++ (.error e :: rest)) =
      .error e
    ∧ requestsMade ((front.map fun p => .ok (mkPage p.1 p.2)) ++
        (.error e :: rest)) = front.length + 1 := by
  induction front with
  | nil =>
    constructor <;> rfl
  | cons p front ih =>
    have hp : pyTruthyOpt p.2 = true := hfront p (by simp)
    have ih' := ih (fun q hq => hfront q (by simp [hq]))
    constructor
    · simp only [List.map_cons, List.cons_append, fetchPages, readPage_mkPage,
        hp, if_true, List.append_eq, ih'.1]
    · simp only [List.map_cons, List.cons_append, requestsMade, readPage_mkPage,
        hp, if_true, List.append_eq, ih'.2, List.length_cons]
      omega

/-! ## Claims -/

/-- C1 (amended): for every query, the pagination loop returns the
concatenation of the `records` arrays of every page it receives, in server
order, with no page dropped or duplicated; the loop terminates exactly when
a response's `offset` value is absent or Python-falsy (the empty string
included), issuing one request per page received. -/
theorem claim_C1_pagination (front : List (List Json × Option Json))
    (lastRecs : List Json) (lastOff : Option Json)
    (hfront : ∀ p ∈ front, pyTruthyOpt p.2 = true)
    (hlast : pyTruthyOpt lastOff = false) :
    fetchPages ((front.map fun p => .ok (mkPage p.1 p.2)) ++
        [.ok (mkPage lastRecs lastOff)]) =
      .ok ((front.map Prod.fst).flatten ++ lastRecs)
    ∧ requestsMade ((front.map fun p => .ok (mkPage p.1 p.2)) ++
        [.ok (mkPage lastRecs lastOff)]) = front.length + 1 :=
  fetchPages_front_last front lastRecs lastOff hfront hlast

theorem claim_C1_pagination_witness :
    fetchPages [.ok (mkPage [.str "a"] (some (.str "cur1"))),
                .ok (mkPage [.str "b"] (some (.str "cur2"))),
                .ok (mkPage [.str "c"] none)] =
      .ok [.str "a", .str "b", .str "c"]
    ∧ requestsMade [.ok (mkPage [.str "a"] (some (.str "cur1"))),
                    .ok (mkPage [.str "b"] (some (.str "cur2"))),
                    .ok (mkPage [.str "c"] none)] = 3 := by
  have h := claim_C1_pagination
    [([Json.str "a"], some (Json.str "cur1")),
     ([Json.str "b"], some (Json.str "cur2"))]
    [Json.str "c"] none
    (by simp [pyTruthyOpt, pyTruthyJson])
    rfl
  simpa using h

/-- C1 as stated is false: a page whose response carries the `offset` key
with value `""` (a cursor is present) still terminates the loop, so only the
first page's records are returned and one request is made, even though the
server has a second page. -/
theorem claim_C1_counterexample :
    fetchPages [.ok (mkPage [.str "recA"] (some (.str ""))),
                .ok (mkPage [.str "recB"] none)] = .ok [.str "recA"]
    ∧ requestsMade [.ok (mkPage [.str "recA"] (some (.str ""))),
                    .ok (mkPage [.str "recB"] none)] = 1
    ∧ (mkPage [.str "recA"] (some (.str ""))).jsonBody =
        .ok (.obj [("records", .arr [.str "recA"]), ("offset", .str "")]) :=
  ⟨rfl, rfl, rfl⟩

/-- C7: against a server returning a truthy cursor on page 1 and no cursor
on page 2, the loop makes exactly two requests and returns the records of
both pages concatenated. -/
theorem claim_C7_two_pages (recs1 recs2 : List Json) (cursor : Json)
    (hc : pyTruthyJson cursor = true) :
    fetchPages [.ok (mkPage recs1 (some cursor)), .ok (mkPage recs2 none)] =
      .ok (recs1 ++ recs2)
    ∧ requestsMade [.ok (mkPage recs1 (some cursor)),
                    .ok (mkPage recs2 none)] = 2 := by
  have h := fetchPages_front_last [(recs1, some cursor)] recs2 none
    (by intro p hp
        simp only [List.mem_singleton] at hp
        subst hp
        simpa [pyTruthyOpt] using hc)
    rfl
  simpa using h

theorem claim_C7_two_pages_witness :
    fetchPages [.ok (mkPage [.str "r1", .str "r2"] (some (.str "itrAAA"))),
                .ok (mkPage [.str "r3"] none)] =
      .ok [.str "r1", .str "r2", .str "r3"]
    ∧ requestsMade [.ok (mkPage [.str "r1", .str "r2"] (some (.str "itrAAA"))),
                    .ok (mkPage [.str "r3"] none)] = 2 := by
  have h := claim_C7_two_pages [Json.str "r1", Json.str "r2"] [Json.str "r3"]
    (Json.str "itrAAA") (by decide)
  simpa using h

/-- C5: a failure mid-pagination aborts the whole list operation with that
error and no records; the failing page is requested exactly once (no retry
inside the loop); and a caller-level retry re-runs the whole fetch, so a
successful second attempt returns the full result from page one. -/
theorem claim_C5_abort_restart (front : List (List Json × Option Json))
    (e : PyError) (rest : List (Except PyError Response))
    (servers : Nat → List (Except PyError Response)) (v : List Json)
    (hfront : ∀ p ∈ front, pyTruthyOpt p.2 = true)
    (h0 : servers 0 = (front.map fun p => .ok (mkPage p.1 p.2)) ++
            (.error e :: rest))
    (h1 : fetchPages (servers 1) = .ok v) :
    fetchPages (servers 0) = .error e
    ∧ requestsMade (servers 0) = front.length + 1
    ∧ prefectRun task_retries (fun i => fetchPages (servers i)) = .ok v := by
  have h := fetchPages_error_after front e rest hfront
  refine ⟨by rw [h0]; exact h.1, by rw [h0]; exact h.2, ?_⟩
  have hf0 : fetchPages (servers 0) = .error e := by rw [h0]; exact h.1
  simp [prefectRun, task_retries, runAttempts, hf0, h1]

theorem claim_C5_abort_restart_witness :
    fetchPages [.ok (mkPage [.str "p1"] (some (.str "curX"))),
                .error (.transportError "timeout")] =
      .error (.transportError "timeout")
    ∧ requestsMade [.ok (mkPage [.str "p1"] (some (.str "curX"))),
                    .error (.transportError "timeout")] = 2
    ∧ prefectRun task_retries (fun i => fetchPages
        (if i = 0 then
          [.ok (mkPage [.str "p1"] (some (.str "curX"))),
           .error (.transportError "timeout")]
         else
          [.ok (mkPage [.str "p1"] (some (.str "curX"))),
           .ok (mkPage [.str "p2"] none)])) =
      .ok [.str "p1", .str "p2"] := by
  have h := claim_C5_abort_restart
    [([Json.str "p1"], some (Json.str "curX"))]
    (.transportError "timeout") []
    (fun i =>
      if i = 0 then
        [.ok (mkPage [.str "p1"] (some (.str "curX"))),
         .error (.transportError "timeout")]
      else
        [.ok (mkPage [.str "p1"] (some (.str "curX"))),
         .ok (mkPage [.str "p2"] none)])
    [Json.str "p1", Json.str "p2"]
    (by simp [pyTruthyOpt, pyTruthyJson])
    rfl
    rfl
  simpa using h

/-- C2: with the decorator configuration from the source
(`retries=2`, `retry_delay_seconds=5`, backup task delay 10), a task body
that fails on its first two attempts and succeeds on the third is retried
transparently: the run returns the successful result and exactly 3
underlying calls are made; the attempt bound lies in 2..3 and each
configured delay in 5..10 seconds. -/
theorem claim_C2_retry {A : Type} (f : Nat → Except PyError A)
    (e0 e1 : PyError) (a : A)
    (h0 : f 0 = .error e0) (h1 : f 1 = .error e1) (h2 : f 2 = .ok a) :
    prefectRun task_retries f = .ok a
    ∧ attemptsMade f 0 task_retries = 3
    ∧ 2 ≤ task_retries + 1 ∧ task_retries + 1 ≤ 3
    ∧ 5 ≤ task_retry_delay_seconds ∧ task_retry_delay_seconds ≤ 10
    ∧ 5 ≤ backup_task_retry_delay_seconds
    ∧ backup_task_retry_delay_seconds ≤ 10 := by
  refine ⟨?_, ?_, by decide, by decide, by decide, by decide, by decide,
    by decide⟩
  · simp [prefectRun, task_retries, runAttempts, h0, h1, h2]
  · simp [attemptsMade, task_retries, h0, h1]

theorem claim_C2_retry_witness :
    prefectRun task_retries
      (fun i => if i < 2 then (.error (.transportError "timeout") :
          Except PyError (List Json)) else .ok [.str "rec1"]) =
      .ok [.str "rec1"]
    ∧ attemptsMade
        (fun i => if i < 2 then (.error (.transportError "timeout") :
            Except PyError (List Json)) else .ok [.str "rec1"])
        0 task_retries = 3 := by
  have h := claim_C2_retry
    (fun i => if i < 2 then (.error (.transportError "timeout") :
        Except PyError (List Json)) else .ok [.str "rec1"])
    (.transportError "timeout") (.transportError "timeout") [.str "rec1"]
    rfl rfl rfl
  exact ⟨h.1, h.2.1⟩

/-- C3 as stated is false: a 404 on update raises the same
`HTTPStatusError` kind as any other 4xx/5xx status — the code never raises
a distinct `NotFoundError`. -/
theorem claim_C3_counterexample :
    (update_airtable_record "app1" "Leads" "recMissing" []
        (.ok ⟨404, "NOT_FOUND", .error "no json"⟩)).2 =
      .error (.httpStatusError 404 "NOT_FOUND")
    ∧ (update_airtable_record "app1" "Leads" "recX" []
        (.ok ⟨500, "SERVER_ERROR", .error "no json"⟩)).2 =
      .error (.httpStatusError 500 "SERVER_ERROR")
    ∧ PyError.kindName (.httpStatusError 404 "NOT_FOUND") =
        PyError.kindName (.httpStatusError 500 "SERVER_ERROR")
    ∧ PyError.kindName (.httpStatusError 404 "NOT_FOUND") ≠ "NotFoundError" :=
  ⟨rfl, rfl, rfl, by decide⟩

/-- C3 (amended): when the server responds 404 to an update, the operation
fails with the generic `HTTPStatusError` carrying status 404 and the
response body — the same error kind raised for every other 4xx/5xx
status. -/
theorem claim_C3_update_404 (base tbl rid : String)
    (fields : List (String × Json)) (body body' : String)
    (jb jb' : Except String Json) (s : Nat) (hs : 400 ≤ s) :
    (update_airtable_record base tbl rid fields
        (.ok ⟨404, body, jb⟩)).2 = .error (.httpStatusError 404 body)
    ∧ (update_airtable_record base tbl rid fields
        (.ok ⟨s, body', jb'⟩)).2 = .error (.httpStatusError s body')
    ∧ PyError.kindName (.httpStatusError 404 body) =
        PyError.kindName (.httpStatusError s body') := by
  refine ⟨rfl, ?_, rfl⟩
  simp only [update_airtable_record, raise_for_status]
  rw [if_neg (by omega)]

theorem claim_C3_update_404_witness :
    (update_airtable_record "app1" "Leads" "recMissing" []
        (.ok ⟨404, "NOT_FOUND", .error "no json"⟩)).2 =
      .error (.httpStatusError 404 "NOT_FOUND")
    ∧ (update_airtable_record "app1" "Leads" "recMissing" []
        (.ok ⟨422, "INVALID_VALUE", .error "no json"⟩)).2 =
      .error (.httpStatusError 422 "INVALID_VALUE") := by
  have h := claim_C3_update_404 "app1" "Leads" "recMissing" []
    "NOT_FOUND" "INVALID_VALUE" (.error "no json") (.error "no json") 422
    (by decide)
  exact ⟨h.1, h.2.1⟩

/-- C4 as stated is false: `log_automation` called with `status="Bogus"`
raises nothing and makes a network call — the create POST is issued (one
request) with `"Bogus"` in the `Status` field, and the server's reply is
returned. -/
theorem claim_C4_counterexample :
    (log_automation "app1" "Synced lead" "Bogus" none none none
        (.ok ⟨200, "{}", .ok (.obj [("id", .str "recLog1")])⟩)).1 =
      [⟨airtableUrl "app1" "Automations Log",
        .obj [("fields", .obj [("Action", .str "Synced lead"),
                               ("Status", .str "Bogus")])]⟩]
    ∧ (log_automation "app1" "Synced lead" "Bogus" none none none
        (.ok ⟨200, "{}", .ok (.obj [("id", .str "recLog1")])⟩)).2 =
      .ok (.obj [("id", .str "recLog1")]) :=
  ⟨rfl, rfl⟩

/-- C4 (amended): `log_automation` performs no validation of `status`: for
every status string — including values outside {Success, Error, Warning} —
the create POST against the `"Automations Log"` table is issued, with the
status placed verbatim in the `Status` field. -/
theorem claim_C4_no_validation (base action status : String)
    (t : Except PyError Response) :
    (log_automation base action status none none none t).1 =
      [⟨airtableUrl base "Automations Log",
        .obj [("fields", .obj [("Action", .str action),
                               ("Status", .str status)])]⟩] :=
  rfl

/-- C6: when the server returns a 4xx/5xx status, every operation fails
with an error carrying the original HTTP status and response body
unmodified — the paginated fetch, create, update and the webhook call
alike. -/
theorem claim_C6_error_surfaced (s : Nat) (body : String)
    (jb : Except String Json) (base tbl rid url : String)
    (fields : List (String × Json)) (pl : Json)
    (rest : List (Except PyError Response)) (hs : 400 ≤ s) :
    fetchPages (.ok ⟨s, body, jb⟩ :: rest) =
      .error (.httpStatusError s body)
    ∧ (create_airtable_record base tbl fields (.ok ⟨s, body, jb⟩)).2 =
      .error (.httpStatusError s body)
    ∧ (update_airtable_record base tbl rid fields (.ok ⟨s, body, jb⟩)).2 =
      .error (.httpStatusError s body)
    ∧ (call_pandadoc_webhook url pl (.ok ⟨s, body, jb⟩)).2 =
      .error (.httpStatusError s body) := by
  have hrs : raise_for_status ⟨s, body, jb⟩ =
      .error (.httpStatusError s body) := by
    simp only [raise_for_status]
    rw [if_neg (by omega)]
  refine ⟨?_, ?_, ?_, ?_⟩
  · simp [fetchPages, readPage, hrs]
  · simp [create_airtable_record, hrs]
  · simp [update_airtable_record, hrs]
  · simp [call_pandadoc_webhook, hrs]

theorem claim_C6_error_surfaced_witness :
    fetchPages [.ok ⟨503, "UNAVAILABLE", .error "no json"⟩] =
      .error (.httpStatusError 503 "UNAVAILABLE")
    ∧ (create_airtable_record "app1" "Leads" []
        (.ok ⟨503, "UNAVAILABLE", .error "no json"⟩)).2 =
      .error (.httpStatusError 503 "UNAVAILABLE")
    ∧ (update_airtable_record "app1" "Leads" "rec1" []
        (.ok ⟨503, "UNAVAILABLE", .error "no json"⟩)).2 =
      .error (.httpStatusError 503 "UNAVAILABLE")
    ∧ (call_pandadoc_webhook "https://hook.example/x" (.obj [])
        (.ok ⟨503, "UNAVAILABLE", .error "no json"⟩)).2 =
      .error (.httpStatusError 503 "UNAVAILABLE") := by
  have h := claim_C6_error_surfaced 503 "UNAVAILABLE" (.error "no json")
    "app1" "Leads" "rec1" "https://hook.example/x" [] (.obj []) []
    (by decide)
  exact h

/-- C8: `create_airtable_record` issues exactly one POST whose JSON body is
`{"fields": fields}` and, on a 2xx response, returns the server's parsed
representation unmodified. -/
theorem claim_C8_create (base tbl : String) (fields : List (String × Json))
    (s : Nat) (body : String) (j : Json) (hlo : 200 ≤ s) (hhi : s < 300) :
    create_airtable_record base tbl fields (.ok ⟨s, body, .ok j⟩) =
      ([⟨airtableUrl base tbl, .obj [("fields", .obj fields)]⟩], .ok j) := by
  simp [create_airtable_record, raise_for_status, respJson, hlo, hhi]

theorem claim_C8_create_witness :
    create_airtable_record "app1" "Leads" [("Name", .str "Test")]
        (.ok ⟨200, "{}",
          .ok (.obj [("id", .str "rec123"),
                     ("fields", .obj [("Name", .str "Test")])])⟩) =
      ([⟨airtableUrl "app1" "Leads",
         .obj [("fields", .obj [("Name", .str "Test")])]⟩],
       .ok (.obj [("id", .str "rec123"),
                  ("fields", .obj [("Name", .str "Test")])])) := by
  have h := claim_C8_create "app1" "Leads" [("Name", .str "Test")] 200 "{}"
    (.obj [("id", .str "rec123"), ("fields", .obj [("Name", .str "Test")])])
    (by decide) (by decide)
  exact h

/-- C9: falsy option values are treated as absent by
`get_airtable_records`: `max_records = 0` sends no `maxRecords` parameter
and behaves exactly like `max_records = None` against any server; an
empty-string `view` or `filter_formula` is likewise omitted from the
request params. -/
theorem claim_C9_falsy_options (v f : Option String) (m : Option Int)
    (server : AirtableParams → List (Except PyError Response)) :
    buildParams v f (some 0) = buildParams v f none
    ∧ (buildParams v f (some 0)).maxRecords = none
    ∧ get_airtable_records v f (some 0) server =
        get_airtable_records v f none server
    ∧ (buildParams (some "") f m).view = none
    ∧ (buildParams v (some "") m).filterByFormula = none :=
  ⟨rfl, rfl, rfl, rfl, rfl⟩

/-- C10 as stated is false: a 2xx response whose body is valid JSON but not
an object (here the array `[1]`) is returned as-is, so the function does
not always return a dictionary. -/
theorem claim_C10_counterexample :
    (call_pandadoc_webhook "https://hook.example/x" (.obj [])
        (.ok ⟨200, "[1]", .ok (.arr [.num 1])⟩)).2 = .ok (.arr [.num 1])
    ∧ Json.isObj (.arr [.num 1]) = false :=
  ⟨rfl, rfl⟩

/-- C10 (amended): for every 2xx response `call_pandadoc_webhook` never
raises: an empty or whitespace-only body, or one that fails to parse as
JSON, yields the `{"status": "accepted", "status_code": <status>}` fallback
dict; otherwise the parsed JSON value is returned as-is (it need not be a
dictionary). -/
theorem claim_C10_webhook_2xx (url : String) (pl : Json) (s : Nat)
    (t : String) (jb : Except String Json) (hlo : 200 ≤ s) (hhi : s < 300) :
    (∃ j, (call_pandadoc_webhook url pl (.ok ⟨s, t, jb⟩)).2 = .ok j)
    ∧ (pyStrip t = "" →
        (call_pandadoc_webhook url pl (.ok ⟨s, t, jb⟩)).2 =
          .ok (.obj [("status", .str "accepted"),
                     ("status_code", .num (s : Int))]))
    ∧ (∀ m, jb = .error m →
        (call_pandadoc_webhook url pl (.ok ⟨s, t, jb⟩)).2 =
          .ok (.obj [("status", .str "accepted"),
                     ("status_code", .num (s : Int))]))
    ∧ (∀ j, t ≠ "" → pyStrip t ≠ "" → jb = .ok j →
        (call_pandadoc_webhook url pl (.ok ⟨s, t, jb⟩)).2 = .ok j) := by
  refine ⟨?_, ?_, ?_, ?_⟩
  · by_cases hc : t ≠ "" ∧ pyStrip t ≠ ""
    · cases hjb : jb with
      | ok j =>
        exact ⟨j, by simp [call_pandadoc_webhook, raise_for_status,
          hlo, hhi, hc.1, hc.2, hjb]⟩
      | error m =>
        exact ⟨.obj [("status", .str "accepted"),
            ("status_code", .num (s : Int))],
          by simp [call_pandadoc_webhook, raise_for_status,
            hlo, hhi, hc.1, hc.2, hjb]⟩
    · exact ⟨.obj [("status", .str "accepted"),
          ("status_code", .num (s : Int))],
        by simp [call_pandadoc_webhook, raise_for_status, hlo, hhi, hc]⟩
  · intro ht
    simp [call_pandadoc_webhook, raise_for_status, hlo, hhi, ht]
  · intro m hm
    by_cases hc : t ≠ "" ∧ pyStrip t ≠ ""
    · simp [call_pandadoc_webhook, raise_for_status, hlo, hhi,
        hc.1, hc.2, hm]
    · simp [call_pandadoc_webhook, raise_for_status, hlo, hhi, hc]
  · intro j h1 h2 h3
    simp [call_pandadoc_webhook, raise_for_status, hlo, hhi, h1, h2, h3]

theorem claim_C10_webhook_2xx_witness :
    (call_pandadoc_webhook "https://hook.example/x" (.obj [])
        (.ok ⟨202, "   ", .error "empty body"⟩)).2 =
      .ok (.obj [("status", .str "accepted"), ("status_code", .num 202)]) := by
  have h := claim_C10_webhook_2xx "https://hook.example/x" (.obj []) 202
    "   " (.error "empty body") (by decide) (by decide)
  exact h.2.1 (by decide)
